import Mathlib

/-!
Verification of the Art Institute of Chicago MCP server (`server.py`).

The embedding models Python values flowing through the server as a small
JSON-like datatype `JValue`.  Python dictionaries are association lists
(`PyDict`), preserving insertion order as Python dicts do.  Fallible Python
operations (attribute access on `None`, slicing a non-sliceable value, ...)
are modelled with `Except PyErr`; the `try/except` blocks of the source
become matches on that result.  The outbound HTTP layer is an oracle
function (`Net`) supplied to the functions that perform requests, and every
request actually issued is returned alongside the result so that theorems
can speak about the outbound traffic.
-/

namespace AicServer

/-- JSON-like values: the payloads the server receives and the argument
values a tool invocation carries. -/
inductive JValue where
  | null
  | bool (b : Bool)
  | int (n : Int)
  | str (s : String)
  | list (xs : List JValue)
  | obj (fields : List (String × JValue))

/-- A Python dict with string keys, in insertion order. -/
abbrev PyDict := List (String × JValue)

/-- Errors a modelled Python computation can raise.  `AICAPIError` is the
custom exception class of `server.py`; `other` stands for every other
exception (TypeError, AttributeError, KeyError, ...), carrying `str(e)`. -/
inductive PyErr where
  | AICAPIError (msg : String)
  | other (msg : String)

/-- `True` exactly on the `null` constructor (used to model the
`v is not None` filter). -/
def JValue.isNull : JValue → Bool
  | .null => true
  | _ => false

/-- `True` when the value is the string `k` (element test used by the
Python `in` operator on lists). -/
def JValue.eqStr (v : JValue) (k : String) : Bool :=
  match v with
  | .str s => s == k
  | _ => false

mutual
/-- Python `repr` of a value (the rendering `str` falls back to for
non-string values; quoting of nested strings is simplified). -/
def pyRepr : JValue → String
  | .null => "None"
  | .bool true => "True"
  | .bool false => "False"
  | .int n => toString n
  | .str s => "'" ++ s ++ "'"
  | .list xs => "[" ++ String.intercalate ", " (pyReprList xs) ++ "]"
  | .obj fs => "\x7b" ++ String.intercalate ", " (pyReprFields fs) ++ "\x7d"

/-- `repr` of each element of a list. -/
def pyReprList : List JValue → List String
  | [] => []
  | x :: xs => pyRepr x :: pyReprList xs

/-- `repr` of each key/value pair of a dict. -/
def pyReprFields : List (String × JValue) → List String
  | [] => []
  | (k, v) :: fs => ("'" ++ k ++ "': " ++ pyRepr v) :: pyReprFields fs
end

/-- Python `str()` of a value, as used by f-string interpolation. -/
def pyStr : JValue → String
  | .str s => s
  | v => pyRepr v

/-- Python truthiness of a value. -/
def pyTruthy : JValue → Bool
  | .null => false
  | .bool b => b
  | .int n => decide (n ≠ 0)
  | .str s => decide (s ≠ "")
  | .list xs => !xs.isEmpty
  | .obj fs => !fs.isEmpty

/-- Lookup of a key in a dict (first matching entry). -/
def dictLookup (d : PyDict) (k : String) : Option JValue :=
  (d.find? (fun kv => kv.1 == k)).map (fun kv => kv.2)

/-- Python `d.get(k, default)` on a dict known to be a dict. -/
def dictGetD (d : PyDict) (k : String) (v : JValue) : JValue :=
  (dictLookup d k).getD v

/-- Python `d.get(k)` on a dict known to be a dict (`None` if absent). -/
def dictGet (d : PyDict) (k : String) : JValue :=
  dictGetD d k JValue.null

/-- Python `v.get(k, default)` on an arbitrary value: raises
`AttributeError` unless `v` is a dict. -/
def pyGetD (v : JValue) (k : String) (default : JValue) : Except PyErr JValue :=
  match v with
  | .obj fs => .ok (dictGetD fs k default)
  | .null => .error (.other "'NoneType' object has no attribute 'get'")
  | _ => .error (.other "object has no attribute 'get'")

/-- Python `v.get(k)` on an arbitrary value. -/
def pyGet (v : JValue) (k : String) : Except PyErr JValue :=
  pyGetD v k JValue.null

/-- Python `v[k]` with a string key: a key lookup on dicts, a `TypeError`
on anything else. -/
def pyIndex (v : JValue) (k : String) : Except PyErr JValue :=
  match v with
  | .obj fs =>
    match dictLookup fs k with
    | some x => .ok x
    | none => .error (.other ("KeyError: '" ++ k ++ "'"))
  | _ => .error (.other "object is not subscriptable by a string key")

/-- Python `k in v`: key test on dicts, element test on lists, substring
test on strings, `TypeError` otherwise. -/
def pyHasKey (v : JValue) (k : String) : Except PyErr Bool :=
  match v with
  | .obj fs => .ok ((dictLookup fs k).isSome)
  | .list xs => .ok (xs.any (fun x => x.eqStr k))
  | .str s => .ok ((s.splitOn k).length != 1)
  | .null => .error (.other "argument of type 'NoneType' is not iterable")
  | _ => .error (.other "argument of type is not iterable")

/-- Python `v[:300]` (the description-truncation slice): slices strings by
code point and lists by element; raises `TypeError` on anything else, in
particular on `None`. -/
def pySlice300 : JValue → Except PyErr JValue
  | .str s => .ok (.str (String.mk (s.data.take 300)))
  | .list xs => .ok (.list (xs.take 300))
  | .null => .error (.other "'NoneType' object is not subscriptable")
  | .int _ => .error (.other "'int' object is not subscriptable")
  | .bool _ => .error (.other "'bool' object is not subscriptable")
  | .obj _ => .error (.other "unhashable type: 'slice'")

/-- Python `len(v)`: defined on strings (code points), lists and dicts;
raises `TypeError` otherwise. -/
def pyLen : JValue → Except PyErr Nat
  | .str s => .ok s.length
  | .list xs => .ok xs.length
  | .obj fs => .ok fs.length
  | .null => .error (.other "object of type 'NoneType' has no len()")
  | _ => .error (.other "object has no len()")

/-- Python `xs[:n]` for an `int` bound `n` that may be negative
(a negative bound drops elements from the end). -/
def pyTakeInt (xs : List JValue) (n : Int) : List JValue :=
  if n < 0 then xs.take (xs.length - (-n).toNat) else xs.take n.toNat

/-- Python `v[:n]` in the mixed-search loop (`data["data"][:limit]`):
slices lists and strings, raises `TypeError` otherwise. -/
def pySliceInt (v : JValue) (n : Int) : Except PyErr (List JValue) :=
  match v with
  | .list xs => .ok (pyTakeInt xs n)
  | .str s =>
    .ok ((if n < 0 then s.data.take (s.data.length - (-n).toNat)
          else s.data.take n.toNat).map (fun c => .str (String.mk [c])))
  | .null => .error (.other "'NoneType' object is not subscriptable")
  | _ => .error (.other "object is not subscriptable")

/-- `min(v, m)` where `m` is an `int` constant: defined for `int` values
(Python `bool` compares as an integer); raises `TypeError` otherwise.
Source: `min(arguments.get("limit", 10), MAX_RESULTS)`. -/
def pyMinInt (v : JValue) (m : Int) : Except PyErr Int :=
  match v with
  | .int n => .ok (min n m)
  | .bool b => .ok (min (if b then 1 else 0) m)
  | _ => .error (.other "'<' not supported between instances")

/-- The truncated-description fragment of the record f-strings:
`{description[:300]}{'...' if len(description) > 300 else ''}`. -/
def descClause (description : JValue) : Except PyErr String :=
  match pySlice300 description with
  | .error e => .error e
  | .ok sliced =>
    match pyLen description with
    | .error e => .error e
    | .ok n => .ok (pyStr sliced ++ (if n > 300 then "..." else ""))

/-- One iteration of the artwork loop in `format_artwork_response`:
field extraction, the record block f-string, and the conditional image and
web URL lines. -/
def format_one_artwork (artwork : JValue) : Except PyErr String :=
  match pyGetD artwork "title" (.str "Untitled") with
  | .error e => .error e
  | .ok title =>
  match pyGetD artwork "artist_display" (.str "Unknown artist") with
  | .error e => .error e
  | .ok artist =>
  match pyGetD artwork "date_display" (.str "Unknown date") with
  | .error e => .error e
  | .ok date =>
  match pyGetD artwork "medium_display" (.str "Unknown medium") with
  | .error e => .error e
  | .ok medium =>
  match pyGetD artwork "place_of_origin" (.str "Unknown origin") with
  | .error e => .error e
  | .ok place =>
  match pyGet artwork "short_description" with
  | .error e => .error e
  | .ok sdesc =>
  match (if pyTruthy sdesc then .ok sdesc
         else pyGetD artwork "description" (.str "No description available") :
         Except PyErr JValue) with
  | .error e => .error e
  | .ok description =>
  match pyGetD artwork "id" (.str "Unknown") with
  | .error e => .error e
  | .ok artwork_id =>
  match descClause description with
  | .error e => .error e
  | .ok desc =>
  let base := "\n**" ++ pyStr title ++ "**\nID: " ++ pyStr artwork_id
    ++ "\nArtist: " ++ pyStr artist ++ "\nDate: " ++ pyStr date
    ++ "\nMedium: " ++ pyStr medium ++ "\nOrigin: " ++ pyStr place
    ++ "\nDescription: " ++ desc ++ "\n"
  match pyGet artwork "image_id" with
  | .error e => .error e
  | .ok imgv =>
  let withImg :=
    if pyTruthy imgv then
      base ++ "Image: https://www.artic.edu/iiif/2/" ++ pyStr imgv
        ++ "/full/843,/0/default.jpg\n"
    else base
  match pyGet artwork "id" with
  | .error e => .error e
  | .ok idv =>
  .ok (if pyTruthy idv then
        withImg ++ "View online: https://www.artic.edu/artworks/" ++ pyStr idv ++ "\n"
      else withImg)

/-- `format_artwork_response`: wraps a single record, handles absent or
empty `data`, renders at most 10 record blocks, appends the pagination
summary with a page clause, and joins with the separator line. -/
def format_artwork_response (data : JValue) : Except PyErr String :=
  match pyHasKey data "data" with
  | .error e => .error e
  | .ok hasData =>
  if !hasData then .ok "No artwork data found."
  else
  match pyIndex data "data" with
  | .error e => .error e
  | .ok dval =>
  let artworks := match dval with | JValue.list xs => xs | v => [v]
  if artworks.isEmpty then .ok "No artworks found."
  else
  match (artworks.take 10).mapM format_one_artwork with
  | .error e => .error e
  | .ok blocks =>
  match pyHasKey data "pagination" with
  | .error e => .error e
  | .ok hasPag =>
  if !hasPag then .ok (String.intercalate "\n---\n" blocks)
  else
  match pyIndex data "pagination" with
  | .error e => .error e
  | .ok pagination =>
  match pyGetD pagination "total" (.int 0) with
  | .error e => .error e
  | .ok total =>
  match pyGetD pagination "limit" (.int 0) with
  | .error e => .error e
  | .ok _limitv =>
  match pyGetD pagination "current_page" (.int 1) with
  | .error e => .error e
  | .ok current_page =>
  match pyGetD pagination "total_pages" (.int 1) with
  | .error e => .error e
  | .ok total_pages =>
  .ok (String.intercalate "\n---\n" (blocks ++
    ["\nShowing " ++ toString artworks.length ++ " of " ++ pyStr total
      ++ " total results (Page " ++ pyStr current_page ++ "/"
      ++ pyStr total_pages ++ ")"]))

/-- One iteration of the agent loop in `format_agent_response`. -/
def format_one_agent (agent : JValue) : Except PyErr String :=
  match pyGetD agent "title" (.str "Unknown") with
  | .error e => .error e
  | .ok title =>
  match pyGetD agent "birth_date" (.str "Unknown") with
  | .error e => .error e
  | .ok birth_date =>
  match pyGetD agent "death_date" (.str "Unknown") with
  | .error e => .error e
  | .ok death_date =>
  match pyGetD agent "description" (.str "No description available") with
  | .error e => .error e
  | .ok description =>
  match pyGetD agent "id" (.str "Unknown") with
  | .error e => .error e
  | .ok agent_id =>
  match descClause description with
  | .error e => .error e
  | .ok desc =>
  .ok ("\n**" ++ pyStr title ++ "**\nID: " ++ pyStr agent_id
    ++ "\nBirth: " ++ pyStr birth_date ++ "\nDeath: " ++ pyStr death_date
    ++ "\nDescription: " ++ desc ++ "\n")

/-- `format_agent_response`: like the artwork renderer but with agent
fields and a pagination summary without the page clause. -/
def format_agent_response (data : JValue) : Except PyErr String :=
  match pyHasKey data "data" with
  | .error e => .error e
  | .ok hasData =>
  if !hasData then .ok "No agent data found."
  else
  match pyIndex data "data" with
  | .error e => .error e
  | .ok dval =>
  let agents := match dval with | JValue.list xs => xs | v => [v]
  if agents.isEmpty then .ok "No agents found."
  else
  match (agents.take 10).mapM format_one_agent with
  | .error e => .error e
  | .ok blocks =>
  match pyHasKey data "pagination" with
  | .error e => .error e
  | .ok hasPag =>
  if !hasPag then .ok (String.intercalate "\n---\n" blocks)
  else
  match pyIndex data "pagination" with
  | .error e => .error e
  | .ok pagination =>
  match pyGetD pagination "total" (.int 0) with
  | .error e => .error e
  | .ok total =>
  .ok (String.intercalate "\n---\n" (blocks ++
    ["\nShowing " ++ toString agents.length ++ " of " ++ pyStr total
      ++ " total results"]))

/-- One iteration of the exhibition loop in `format_exhibition_response`,
including the conditional `web_url` line. -/
def format_one_exhibition (exhibition : JValue) : Except PyErr String :=
  match pyGetD exhibition "title" (.str "Untitled Exhibition") with
  | .error e => .error e
  | .ok title =>
  match pyGetD exhibition "short_description" (.str "No description available") with
  | .error e => .error e
  | .ok description =>
  match pyGetD exhibition "aic_start_at" (.str "Unknown") with
  | .error e => .error e
  | .ok start_date =>
  match pyGetD exhibition "aic_end_at" (.str "Unknown") with
  | .error e => .error e
  | .ok end_date =>
  match pyGetD exhibition "status" (.str "Unknown") with
  | .error e => .error e
  | .ok status =>
  match pyGetD exhibition "gallery_title" (.str "Unknown location") with
  | .error e => .error e
  | .ok gallery =>
  match pyGetD exhibition "id" (.str "Unknown") with
  | .error e => .error e
  | .ok exhibition_id =>
  match descClause description with
  | .error e => .error e
  | .ok desc =>
  let base := "\n**" ++ pyStr title ++ "**\nID: " ++ pyStr exhibition_id
    ++ "\nStatus: " ++ pyStr status ++ "\nDates: " ++ pyStr start_date
    ++ " to " ++ pyStr end_date ++ "\nLocation: " ++ pyStr gallery
    ++ "\nDescription: " ++ desc ++ "\n"
  match pyGet exhibition "web_url" with
  | .error e => .error e
  | .ok webv =>
  .ok (if pyTruthy webv then base ++ "More info: " ++ pyStr webv ++ "\n"
       else base)

/-- `format_exhibition_response`. -/
def format_exhibition_response (data : JValue) : Except PyErr String :=
  match pyHasKey data "data" with
  | .error e => .error e
  | .ok hasData =>
  if !hasData then .ok "No exhibition data found."
  else
  match pyIndex data "data" with
  | .error e => .error e
  | .ok dval =>
  let exhibitions := match dval with | JValue.list xs => xs | v => [v]
  if exhibitions.isEmpty then .ok "No exhibitions found."
  else
  match (exhibitions.take 10).mapM format_one_exhibition with
  | .error e => .error e
  | .ok blocks =>
  match pyHasKey data "pagination" with
  | .error e => .error e
  | .ok hasPag =>
  if !hasPag then .ok (String.intercalate "\n---\n" blocks)
  else
  match pyIndex data "pagination" with
  | .error e => .error e
  | .ok pagination =>
  match pyGetD pagination "total" (.int 0) with
  | .error e => .error e
  | .ok total =>
  .ok (String.intercalate "\n---\n" (blocks ++
    ["\nShowing " ++ toString exhibitions.length ++ " of " ++ pyStr total
      ++ " total results"]))

/-- One iteration of the gallery loop in `format_gallery_response`,
including the open/closed status label. -/
def format_one_gallery (gallery : JValue) : Except PyErr String :=
  match pyGetD gallery "title" (.str "Unknown Gallery") with
  | .error e => .error e
  | .ok title =>
  match pyGetD gallery "number" (.str "Unknown") with
  | .error e => .error e
  | .ok number =>
  match pyGetD gallery "floor" (.str "Unknown") with
  | .error e => .error e
  | .ok floor =>
  match pyGetD gallery "is_closed" (.bool false) with
  | .error e => .error e
  | .ok is_closed =>
  match pyGetD gallery "id" (.str "Unknown") with
  | .error e => .error e
  | .ok gallery_id =>
  let status := if pyTruthy is_closed then "Closed" else "Open"
  .ok ("\n**" ++ pyStr title ++ "**\nID: " ++ pyStr gallery_id
    ++ "\nGallery Number: " ++ pyStr number ++ "\nFloor: " ++ pyStr floor
    ++ "\nStatus: " ++ status ++ "\n")

/-- `format_gallery_response`: display cap 20 instead of 10. -/
def format_gallery_response (data : JValue) : Except PyErr String :=
  match pyHasKey data "data" with
  | .error e => .error e
  | .ok hasData =>
  if !hasData then .ok "No gallery data found."
  else
  match pyIndex data "data" with
  | .error e => .error e
  | .ok dval =>
  let galleries := match dval with | JValue.list xs => xs | v => [v]
  if galleries.isEmpty then .ok "No galleries found."
  else
  match (galleries.take 20).mapM format_one_gallery with
  | .error e => .error e
  | .ok blocks =>
  match pyHasKey data "pagination" with
  | .error e => .error e
  | .ok hasPag =>
  if !hasPag then .ok (String.intercalate "\n---\n" blocks)
  else
  match pyIndex data "pagination" with
  | .error e => .error e
  | .ok pagination =>
  match pyGetD pagination "total" (.int 0) with
  | .error e => .error e
  | .ok total =>
  .ok (String.intercalate "\n---\n" (blocks ++
    ["\nShowing " ++ toString galleries.length ++ " of " ++ pyStr total
      ++ " total results"]))

/-- `BASE_URL` constant of `server.py`. -/
def BASE_URL : String := "https://api.artic.edu/api/v1"

/-- `MAX_RESULTS` constant of `server.py`. -/
def MAX_RESULTS : Int := 100

/-- Failures of the underlying HTTP client, mirroring the `httpx`
exceptions `make_api_request` distinguishes: a non-2xx response
(`HTTPStatusError`, carrying status code and body text), a transport
failure (`RequestError`), and anything else (e.g. JSON decoding). -/
inductive HttpFailure where
  | statusError (code : Nat) (text : String)
  | requestError (msg : String)
  | otherError (msg : String)

/-- One outbound request as observed on the wire: the full URL and the
key/value pairs that end up in the encoded query string. -/
structure Request where
  url : String
  params : PyDict

/-- The network oracle: what `client.get(url, params=...).json()` returns
for a given URL and encoded parameter set. -/
abbrev Net := String → PyDict → Except HttpFailure JValue

/-- `endpoint.lstrip('/')`. -/
def lstripSlash (s : String) : String :=
  String.mk (s.data.dropWhile (fun c => c == '/'))

/-- `make_api_request`: builds the URL, filters `None` values out of the
parameter dict, performs the single GET through the oracle, and converts
every failure into `AICAPIError` with the messages of the source.  The
request actually issued is returned alongside the result. -/
def make_api_request (net : Net) (endpoint : String)
    (params : Option PyDict := none) : Except PyErr JValue × Request :=
  let url := BASE_URL ++ "/" ++ lstripSlash endpoint
  let params2 : Option PyDict :=
    match params with
    | some d =>
      if d.isEmpty then some d
      else some (d.filter (fun kv => !kv.2.isNull))
    | none => none
  let req : Request := ⟨url, params2.getD []⟩
  (match net req.url req.params with
   | .ok json => .ok json
   | .error (.statusError code text) =>
     .error (.AICAPIError ("API request failed: " ++ toString code ++ " - " ++ text))
   | .error (.requestError msg) =>
     .error (.AICAPIError ("Failed to connect to API: " ++ msg))
   | .error (.otherError msg) =>
     .error (.AICAPIError ("Unexpected error: " ++ msg)),
   req)

/-- One line of the mixed-search loop in the `search_all` branch. -/
def format_one_search_item (item : JValue) : Except PyErr String :=
  match pyGetD item "api_model" (.str "unknown") with
  | .error e => .error e
  | .ok api_model =>
  match pyGetD item "title" (.str "Untitled") with
  | .error e => .error e
  | .ok title =>
  match pyGetD item "id" (.str "Unknown") with
  | .error e => .error e
  | .ok item_id =>
  .ok ("**" ++ pyStr title ++ "** (Type: " ++ pyStr api_model
    ++ ", ID: " ++ pyStr item_id ++ ")")

/-- The inline mixed-result formatting of the `search_all` branch of
`call_tool` (the source keeps it in the branch body rather than in a
named formatter). -/
def format_search_all_text (data : JValue) (limit : Int) : Except PyErr String :=
  match pyHasKey data "data" with
  | .error e => .error e
  | .ok hasData =>
  if !hasData then .ok "No results found."
  else
  match pyIndex data "data" with
  | .error e => .error e
  | .ok dval =>
  if !pyTruthy dval then .ok "No results found."
  else
  match pySliceInt dval limit with
  | .error e => .error e
  | .ok items =>
  match items.mapM format_one_search_item with
  | .error e => .error e
  | .ok results =>
  let base := String.intercalate "\n" results
  match pyHasKey data "pagination" with
  | .error e => .error e
  | .ok hasPag =>
  if !hasPag then .ok base
  else
  match pyIndex data "pagination" with
  | .error e => .error e
  | .ok pagination =>
  match pyGetD pagination "total" (.int 0) with
  | .error e => .error e
  | .ok total =>
  .ok (base ++ "\n\nShowing " ++ toString results.length ++ " of "
    ++ pyStr total ++ " total results")

/-- The `try` body of `call_tool`: resolves the tool name, normalizes the
arguments, performs the outbound request and renders the response,
producing the single reply text (or the exception the body raises).  The
second component is the list of outbound requests made (empty or one). -/
def call_tool_text (net : Net) (name : String) (arguments : PyDict) :
    Except PyErr String × List Request :=
  if name = "search_artworks" then
    let query := dictGet arguments "query"
    match pyMinInt (dictGetD arguments "limit" (.int 10)) MAX_RESULTS with
    | .error e => (.error e, [])
    | .ok limit =>
      let page := dictGetD arguments "page" (.int 1)
      let fields := dictGet arguments "fields"
      let params : PyDict :=
        [("q", query), ("limit", .int limit), ("page", page), ("fields", fields)]
      let out := make_api_request net "artworks/search" (some params)
      (match out.1 with
       | .error e => .error e
       | .ok data => format_artwork_response data, [out.2])
  else if name = "get_artwork" then
    let artwork_id := dictGet arguments "artwork_id"
    let fields := dictGet arguments "fields"
    let params : Option PyDict :=
      if pyTruthy fields then some [("fields", fields)] else none
    let out := make_api_request net ("artworks/" ++ pyStr artwork_id) params
    (match out.1 with
     | .error e => .error e
     | .ok data => format_artwork_response data, [out.2])
  else if name = "search_agents" then
    let query := dictGet arguments "query"
    match pyMinInt (dictGetD arguments "limit" (.int 10)) MAX_RESULTS with
    | .error e => (.error e, [])
    | .ok limit =>
      let page := dictGetD arguments "page" (.int 1)
      let params : PyDict := [("q", query), ("limit", .int limit), ("page", page)]
      let out := make_api_request net "agents/search" (some params)
      (match out.1 with
       | .error e => .error e
       | .ok data => format_agent_response data, [out.2])
  else if name = "get_agent" then
    let agent_id := dictGet arguments "agent_id"
    let out := make_api_request net ("agents/" ++ pyStr agent_id)
    (match out.1 with
     | .error e => .error e
     | .ok data => format_agent_response data, [out.2])
  else if name = "search_exhibitions" then
    let query := dictGet arguments "query"
    match pyMinInt (dictGetD arguments "limit" (.int 10)) MAX_RESULTS with
    | .error e => (.error e, [])
    | .ok limit =>
      let page := dictGetD arguments "page" (.int 1)
      let params : PyDict := [("q", query), ("limit", .int limit), ("page", page)]
      let out := make_api_request net "exhibitions/search" (some params)
      (match out.1 with
       | .error e => .error e
       | .ok data => format_exhibition_response data, [out.2])
  else if name = "get_exhibition" then
    let exhibition_id := dictGet arguments "exhibition_id"
    let out := make_api_request net ("exhibitions/" ++ pyStr exhibition_id)
    (match out.1 with
     | .error e => .error e
     | .ok data => format_exhibition_response data, [out.2])
  else if name = "list_galleries" then
    match pyMinInt (dictGetD arguments "limit" (.int 20)) MAX_RESULTS with
    | .error e => (.error e, [])
    | .ok limit =>
      let page := dictGetD arguments "page" (.int 1)
      let params : PyDict := [("limit", .int limit), ("page", page)]
      let out := make_api_request net "galleries" (some params)
      (match out.1 with
       | .error e => .error e
       | .ok data => format_gallery_response data, [out.2])
  else if name = "get_gallery" then
    let gallery_id := dictGet arguments "gallery_id"
    let out := make_api_request net ("galleries/" ++ pyStr gallery_id)
    (match out.1 with
     | .error e => .error e
     | .ok data => format_gallery_response data, [out.2])
  else if name = "search_all" then
    let query := dictGet arguments "query"
    match pyMinInt (dictGetD arguments "limit" (.int 10)) MAX_RESULTS with
    | .error e => (.error e, [])
    | .ok limit =>
      let params : PyDict := [("q", query), ("limit", .int limit)]
      let out := make_api_request net "search" (some params)
      (match out.1 with
       | .error e => .error e
       | .ok data => format_search_all_text data limit, [out.2])
  else
    (.ok ("Unknown tool: " ++ name), [])

/-- One reply segment; the source always constructs it with
`type="text"`, so only the text is modelled. -/
structure TextContent where
  text : String

/-- `call_tool` with its `try/except` wrapper: an `AICAPIError` from the
body becomes an `Error: ...` reply, any other exception becomes an
`Unexpected error: ...` reply; a successful body text is wrapped as the
single reply segment. -/
def call_tool (net : Net) (name : String) (arguments : PyDict) :
    List TextContent × List Request :=
  let out := call_tool_text net name arguments
  (match out.1 with
   | .ok t => [⟨t⟩]
   | .error (.AICAPIError m) => [⟨"Error: " ++ m⟩]
   | .error (.other m) => [⟨"Unexpected error: " ++ m⟩],
   out.2)

/-- The tool names `call_tool` dispatches on (the conditions of its
if/elif chain, in order). -/
def dispatchNames : List String :=
  ["search_artworks", "get_artwork", "search_agents", "get_agent",
   "search_exhibitions", "get_exhibition", "list_galleries", "get_gallery",
   "search_all"]

/-! Auxiliary executable predicates and concrete fixtures used by the
theorems below. -/

/-- `startsWithL pat l`: `pat` is a leading segment of `l`. -/
def startsWithL : List Char → List Char → Bool
  | [], _ => true
  | _ :: _, [] => false
  | p :: ps, c :: cs => (p == c) && startsWithL ps cs

/-- `hasSubstrL pat l`: `pat` occurs contiguously somewhere in `l`. -/
def hasSubstrL (pat : List Char) : List Char → Bool
  | [] => startsWithL pat []
  | c :: cs => startsWithL pat (c :: cs) || hasSubstrL pat cs

/-- `strContains s pat`: the string `pat` occurs in `s`. -/
def strContains (s pat : String) : Bool :=
  hasSubstrL pat.data s.data

/-- Oracle returning an empty JSON object for every request. -/
def netOkEmpty : Net := fun _ _ => .ok (.obj [])

/-- Oracle failing every request with HTTP 404 and body `not found`. -/
def net404 : Net := fun _ _ => .error (.statusError 404 "not found")

/-- Oracle returning one agent record whose `description` key is present
with an explicit `null` value. -/
def netAgentNullDesc : Net := fun _ _ =>
  .ok (.obj [("data", .list [JValue.obj [("description", JValue.null)]])])

/-- Oracle returning one artwork record with both `short_description` and
`description` present as explicit `null`. -/
def netArtworkNullDesc : Net := fun _ _ =>
  .ok (.obj [("data", .list
    [JValue.obj [("short_description", JValue.null), ("description", JValue.null)]])])

/-- Envelope with 11 artwork records and the pagination of the spec
example (total 37, limit 10, page 1 of 4). -/
def envEleven : JValue :=
  .obj [("data", .list (List.replicate 11 (JValue.obj []))),
        ("pagination", .obj [("total", JValue.int 37), ("limit", JValue.int 10),
                             ("current_page", JValue.int 1), ("total_pages", JValue.int 4)])]

/-- The artwork renderer's output on `envEleven`. -/
def outEleven : String :=
  ((format_artwork_response envEleven).toOption).getD ""

/-- Envelope with exactly 10 artwork records and the same pagination. -/
def envTen : JValue :=
  .obj [("data", .list (List.replicate 10 (JValue.obj []))),
        ("pagination", .obj [("total", JValue.int 37), ("limit", JValue.int 10),
                             ("current_page", JValue.int 1), ("total_pages", JValue.int 4)])]

/-- The artwork renderer's output on `envTen`. -/
def outTen : String :=
  ((format_artwork_response envTen).toOption).getD ""

/-- Artwork record whose `id` is present with the integer 0 and whose
`image_id` is present and non-empty. -/
def recIdZero : JValue :=
  .obj [("id", JValue.int 0), ("image_id", JValue.str "abc123")]

/-- The rendered block for `recIdZero`. -/
def outIdZero : String :=
  ((format_one_artwork recIdZero).toOption).getD ""

/-- Artwork record with `image_id = "abc123"` and `id = 42` (the concrete
record of the spec example). -/
def recFortyTwo : JValue :=
  .obj [("id", JValue.int 42), ("image_id", JValue.str "abc123")]

/-- The rendered block for `recFortyTwo`. -/
def outFortyTwo : String :=
  ((format_one_artwork recFortyTwo).toOption).getD ""

/-- The record blocks the artwork renderer produces for `envEleven`
(the display cap keeps only the first 10 of the 11 records). -/
def blocksEleven : List String :=
  ((((List.replicate 11 (JValue.obj [])).take 10).mapM format_one_artwork).toOption).getD []

/-! Theorems. -/

set_option maxRecDepth 100000

/-- The request log of `call_tool` is the request log of its `try` body. -/
theorem call_tool_log (net : Net) (name : String) (args : PyDict) :
    (call_tool net name args).2 = (call_tool_text net name args).2 := rfl

/-- Every key/value pair of the request issued by `make_api_request` has a
non-null value: the `None`-filter runs on every non-empty parameter dict. -/
theorem make_api_request_no_null (net : Net) (e : String) (p : Option PyDict)
    (kv : String × JValue) (h : kv ∈ (make_api_request net e p).2.params) :
    kv.2 ≠ JValue.null := by
  cases p with
  | none => simp [make_api_request] at h
  | some d =>
    by_cases hd : d.isEmpty
    · rw [List.isEmpty_iff] at hd
      subst hd
      simp [make_api_request] at h
    · simp only [make_api_request, hd, if_neg, Bool.false_eq_true, if_false,
        Option.getD_some] at h
      have := List.of_mem_filter h
      intro hnull
      rw [hnull] at this
      simp [JValue.isNull] at this

/-- The request log of the `call_tool` body is empty or consists of the
single request issued by `make_api_request`. -/
theorem call_tool_text_log_shape (net : Net) (name : String) (args : PyDict) :
    (call_tool_text net name args).2 = [] ∨
    ∃ e p, (call_tool_text net name args).2 = [(make_api_request net e p).2] := by
  by_cases h1 : name = "search_artworks"
  · subst h1
    rcases hm : pyMinInt (dictGetD args "limit" (JValue.int 10)) MAX_RESULTS with e | l
    · exact Or.inl (by unfold call_tool_text; rw [hm]; rfl)
    · exact Or.inr ⟨_, _, by unfold call_tool_text; rw [hm]; rfl⟩
  by_cases h2 : name = "get_artwork"
  · subst h2
    exact Or.inr ⟨_, _, rfl⟩
  by_cases h3 : name = "search_agents"
  · subst h3
    rcases hm : pyMinInt (dictGetD args "limit" (JValue.int 10)) MAX_RESULTS with e | l
    · exact Or.inl (by unfold call_tool_text; rw [hm]; rfl)
    · exact Or.inr ⟨_, _, by unfold call_tool_text; rw [hm]; rfl⟩
  by_cases h4 : name = "get_agent"
  · subst h4
    exact Or.inr ⟨_, _, rfl⟩
  by_cases h5 : name = "search_exhibitions"
  · subst h5
    rcases hm : pyMinInt (dictGetD args "limit" (JValue.int 10)) MAX_RESULTS with e | l
    · exact Or.inl (by unfold call_tool_text; rw [hm]; rfl)
    · exact Or.inr ⟨_, _, by unfold call_tool_text; rw [hm]; rfl⟩
  by_cases h6 : name = "get_exhibition"
  · subst h6
    exact Or.inr ⟨_, _, rfl⟩
  by_cases h7 : name = "list_galleries"
  · subst h7
    rcases hm : pyMinInt (dictGetD args "limit" (JValue.int 20)) MAX_RESULTS with e | l
    · exact Or.inl (by unfold call_tool_text; rw [hm]; rfl)
    · exact Or.inr ⟨_, _, by unfold call_tool_text; rw [hm]; rfl⟩
  by_cases h8 : name = "get_gallery"
  · subst h8
    exact Or.inr ⟨_, _, rfl⟩
  by_cases h9 : name = "search_all"
  · subst h9
    rcases hm : pyMinInt (dictGetD args "limit" (JValue.int 10)) MAX_RESULTS with e | l
    · exact Or.inl (by unfold call_tool_text; rw [hm]; rfl)
    · exact Or.inr ⟨_, _, by unfold call_tool_text; rw [hm]; rfl⟩
  refine Or.inl ?_
  unfold call_tool_text
  rw [if_neg h1, if_neg h2, if_neg h3, if_neg h4, if_neg h5, if_neg h6, if_neg h7,
    if_neg h8, if_neg h9]

/-- C1 counterexample: with an explicit `limit` of 0 on `search_artworks`,
the outbound parameter set carries `limit = 0`, which does not lie in the
inclusive range 1..100 — the lower end is not saturated. -/
theorem c1_counterexample_limit_zero_passes_through :
    (call_tool netOkEmpty "search_artworks"
        [("query", JValue.str "monet"), ("limit", JValue.int 0)]).2
      = [⟨"https://api.artic.edu/api/v1/artworks/search",
          [("q", JValue.str "monet"), ("limit", JValue.int 0), ("page", JValue.int 1)]⟩]
    ∧ (0 : Int) < 1 :=
  ⟨rfl, by decide⟩

/-- C1 (amended): the normalized `limit` sent outbound is `min input 100`
for every integer input — saturation happens at the upper end only, and
non-positive inputs pass through unchanged; when `limit` is absent the
default is 10 for the search operations and 20 for gallery listing. -/
theorem c1_limit_clamped_above_only (net : Net) (n : Int) (q : String) :
    (call_tool net "search_artworks" [("query", JValue.str q), ("limit", JValue.int n)]).2 =
      [⟨"https://api.artic.edu/api/v1/artworks/search",
        [("q", JValue.str q), ("limit", JValue.int (min n 100)), ("page", JValue.int 1)]⟩]
  ∧ (call_tool net "search_agents" [("query", JValue.str q), ("limit", JValue.int n)]).2 =
      [⟨"https://api.artic.edu/api/v1/agents/search",
        [("q", JValue.str q), ("limit", JValue.int (min n 100)), ("page", JValue.int 1)]⟩]
  ∧ (call_tool net "search_exhibitions" [("query", JValue.str q), ("limit", JValue.int n)]).2 =
      [⟨"https://api.artic.edu/api/v1/exhibitions/search",
        [("q", JValue.str q), ("limit", JValue.int (min n 100)), ("page", JValue.int 1)]⟩]
  ∧ (call_tool net "list_galleries" [("limit", JValue.int n)]).2 =
      [⟨"https://api.artic.edu/api/v1/galleries",
        [("limit", JValue.int (min n 100)), ("page", JValue.int 1)]⟩]
  ∧ (call_tool net "search_all" [("query", JValue.str q), ("limit", JValue.int n)]).2 =
      [⟨"https://api.artic.edu/api/v1/search",
        [("q", JValue.str q), ("limit", JValue.int (min n 100))]⟩]
  ∧ (call_tool net "search_artworks" [("query", JValue.str q)]).2 =
      [⟨"https://api.artic.edu/api/v1/artworks/search",
        [("q", JValue.str q), ("limit", JValue.int 10), ("page", JValue.int 1)]⟩]
  ∧ (call_tool net "search_agents" [("query", JValue.str q)]).2 =
      [⟨"https://api.artic.edu/api/v1/agents/search",
        [("q", JValue.str q), ("limit", JValue.int 10), ("page", JValue.int 1)]⟩]
  ∧ (call_tool net "search_exhibitions" [("query", JValue.str q)]).2 =
      [⟨"https://api.artic.edu/api/v1/exhibitions/search",
        [("q", JValue.str q), ("limit", JValue.int 10), ("page", JValue.int 1)]⟩]
  ∧ (call_tool net "search_all" [("query", JValue.str q)]).2 =
      [⟨"https://api.artic.edu/api/v1/search",
        [("q", JValue.str q), ("limit", JValue.int 10)]⟩]
  ∧ (call_tool net "list_galleries" []).2 =
      [⟨"https://api.artic.edu/api/v1/galleries",
        [("limit", JValue.int 20), ("page", JValue.int 1)]⟩]
  ∧ min n 100 ≤ 100 :=
  ⟨rfl, rfl, rfl, rfl, rfl, rfl, rfl, rfl, rfl, rfl, min_le_right n 100⟩

/-- C2 counterexample: invoking `search_artworks` without the required
`query` argument still issues an outbound request (the log holds one
request, with the `q` key silently dropped), and the reply is the
renderer's output, not a validation message. -/
theorem c2_counterexample_missing_query_still_requests :
    (call_tool netOkEmpty "search_artworks" []).2
      = [⟨"https://api.artic.edu/api/v1/artworks/search",
          [("limit", JValue.int 10), ("page", JValue.int 1)]⟩]
    ∧ ((call_tool netOkEmpty "search_artworks" []).2).length = 1
    ∧ (call_tool netOkEmpty "search_artworks" []).1 = [⟨"No artwork data found."⟩] :=
  ⟨rfl, by decide, rfl⟩

/-- C5: `call_tool` always completes with exactly one text segment, for
every oracle behaviour, tool name and argument set; in particular a 404
status failure from the adapter on `get_artwork` is converted into an
`Error: ...` reply that contains the status code and is not propagated. -/
theorem c5_dispatch_always_one_text_reply :
    (∀ (net : Net) (name : String) (args : PyDict),
      ((call_tool net name args).1).length = 1)
  ∧ (call_tool net404 "get_artwork" [("artwork_id", JValue.int 999999)]).1
      = [⟨"Error: API request failed: 404 - not found"⟩]
  ∧ strContains
      (((call_tool net404 "get_artwork" [("artwork_id", JValue.int 999999)]).1.headD ⟨""⟩).text)
      "404" = true := by
  refine ⟨?_, rfl, by decide⟩
  intro net name args
  cases h : (call_tool_text net name args).1 with
  | ok t => simp [call_tool, h]
  | error e => cases e <;> simp [call_tool, h]

/-- C9: for every tool name outside the dispatch table, `call_tool`
returns the fixed unknown-tool text and issues no outbound request. -/
theorem c9_unknown_tool_no_request (net : Net) (name : String) (args : PyDict)
    (h : name ∉ dispatchNames) :
    call_tool net name args = ([⟨"Unknown tool: " ++ name⟩], []) := by
  simp only [dispatchNames, List.mem_cons, List.not_mem_nil, or_false, not_or] at h
  obtain ⟨h1, h2, h3, h4, h5, h6, h7, h8, h9⟩ := h
  have htext : call_tool_text net name args = (.ok ("Unknown tool: " ++ name), []) := by
    unfold call_tool_text
    rw [if_neg h1, if_neg h2, if_neg h3, if_neg h4, if_neg h5, if_neg h6, if_neg h7,
      if_neg h8, if_neg h9]
  simp [call_tool, htext]

/-- C9 witness: dispatching the unknown name `frobnicate`. -/
theorem c9_unknown_tool_no_request_witness :
    call_tool netOkEmpty "frobnicate" [] = ([⟨"Unknown tool: frobnicate"⟩], []) :=
  (c9_unknown_tool_no_request netOkEmpty "frobnicate" [] (by decide)).trans rfl

/-- C10: a `description` key present with an explicit null is not replaced
by the default (the default applies only to an absent key): rendering such
an agent record, or an artwork record whose `short_description` is null or
absent and whose `description` is null, raises the NoneType slicing error,
and the dispatcher converts the whole invocation into the generic
`Unexpected error: ...` reply; with the key absent the default text is
rendered instead. -/
theorem c10_null_description_raises :
    (∀ t b d i : JValue,
      format_one_agent (.obj [("title", t), ("birth_date", b), ("death_date", d),
          ("id", i), ("description", JValue.null)])
        = .error (.other "'NoneType' object is not subscriptable"))
  ∧ format_one_artwork (.obj [("short_description", JValue.null), ("description", JValue.null)])
      = .error (.other "'NoneType' object is not subscriptable")
  ∧ format_one_artwork (.obj [("description", JValue.null)])
      = .error (.other "'NoneType' object is not subscriptable")
  ∧ (call_tool netAgentNullDesc "get_agent" [("agent_id", JValue.int 7)]).1
      = [⟨"Unexpected error: 'NoneType' object is not subscriptable"⟩]
  ∧ (call_tool netArtworkNullDesc "get_artwork" [("artwork_id", JValue.int 7)]).1
      = [⟨"Unexpected error: 'NoneType' object is not subscriptable"⟩]
  ∧ format_one_agent (.obj [])
      = .ok "\n**Unknown**\nID: Unknown\nBirth: Unknown\nDeath: Unknown\nDescription: No description available\n"
  ∧ format_one_artwork (.obj [])
      = .ok "\n**Untitled**\nID: Unknown\nArtist: Unknown artist\nDate: Unknown date\nMedium: Unknown medium\nOrigin: Unknown origin\nDescription: No description available\n" :=
  ⟨fun _ _ _ _ => rfl, rfl, rfl, rfl, rfl, rfl, rfl⟩

/-- C2 (amended): when the required `query` argument is absent (and no
other optional argument is supplied), every search-kind operation still
calls the Remote Client Adapter: exactly one outbound request is issued,
with the `q` key dropped from the parameter set by the null filter; no
validation reply is produced in its place. -/
theorem c2_missing_query_requests_without_q (net : Net) (arguments : PyDict)
    (hq : dictLookup arguments "query" = none)
    (hl : dictLookup arguments "limit" = none)
    (hp : dictLookup arguments "page" = none)
    (hf : dictLookup arguments "fields" = none) :
    (call_tool net "search_artworks" arguments).2 =
      [⟨"https://api.artic.edu/api/v1/artworks/search",
        [("limit", JValue.int 10), ("page", JValue.int 1)]⟩]
  ∧ (call_tool net "search_agents" arguments).2 =
      [⟨"https://api.artic.edu/api/v1/agents/search",
        [("limit", JValue.int 10), ("page", JValue.int 1)]⟩]
  ∧ (call_tool net "search_exhibitions" arguments).2 =
      [⟨"https://api.artic.edu/api/v1/exhibitions/search",
        [("limit", JValue.int 10), ("page", JValue.int 1)]⟩]
  ∧ (call_tool net "search_all" arguments).2 =
      [⟨"https://api.artic.edu/api/v1/search", [("limit", JValue.int 10)]⟩] := by
  have eq : dictGet arguments "query" = JValue.null := by
    simp [dictGet, dictGetD, hq]
  have el : dictGetD arguments "limit" (JValue.int 10) = JValue.int 10 := by
    simp [dictGetD, hl]
  have ep : dictGetD arguments "page" (JValue.int 1) = JValue.int 1 := by
    simp [dictGetD, hp]
  have ef : dictGet arguments "fields" = JValue.null := by
    simp [dictGet, dictGetD, hf]
  refine ⟨?_, ?_, ?_, ?_⟩ <;>
    (rw [call_tool_log]; unfold call_tool_text; rw [eq, el, ep, ef]; rfl)

/-- C2 witness: `search_agents` invoked with an empty argument mapping. -/
theorem c2_missing_query_requests_without_q_witness :
    (call_tool netOkEmpty "search_agents" []).2 =
      [⟨"https://api.artic.edu/api/v1/agents/search",
        [("limit", JValue.int 10), ("page", JValue.int 1)]⟩] :=
  (c2_missing_query_requests_without_q netOkEmpty [] rfl rfl rfl rfl).2.1

/-- C3 counterexample: on an envelope with 11 artwork records and the
spec-example pagination, only 10 record blocks are rendered, yet the
summary line reads `Showing 11 of 37 ...` (the list length before the
display cap), not `Showing 10 of 37 ...` as the claim requires. -/
theorem c3_counterexample_count_is_pre_truncation :
    blocksEleven.length = 10
  ∧ ((List.replicate 11 (JValue.obj [])).take 10).mapM format_one_artwork
      = Except.ok blocksEleven
  ∧ format_artwork_response envEleven = Except.ok outEleven
  ∧ strContains outEleven "Showing 10 of 37 total results" = false
  ∧ strContains outEleven "Showing 11 of 37 total results (Page 1/4)" = true :=
  ⟨by decide, rfl, rfl, by decide, by decide⟩

/-- C3 (amended): when `pagination` is present, the artwork renderer
appends the one-line summary with the page clause and the other renderers
append it without the page clause, but the record count in the line is the
length of the full `data` list, not the number of blocks kept by the
display cap — the two agree exactly when the list is within the cap, as in
the spec's 10-record example. -/
theorem c3_pagination_summary_line :
    (∀ (xs : List JValue) (t l cp tp : Int) (bs : List String), xs ≠ [] →
      (xs.take 10).mapM format_one_artwork = Except.ok bs →
      format_artwork_response (JValue.obj [("data", JValue.list xs),
          ("pagination", JValue.obj [("total", JValue.int t), ("limit", JValue.int l),
            ("current_page", JValue.int cp), ("total_pages", JValue.int tp)])])
        = Except.ok (String.intercalate "\n---\n" (bs ++
            ["\nShowing " ++ toString xs.length ++ " of " ++ toString t
              ++ " total results (Page " ++ toString cp ++ "/" ++ toString tp ++ ")"])))
  ∧ (∀ (xs : List JValue) (t : Int) (bs : List String), xs ≠ [] →
      (xs.take 10).mapM format_one_agent = Except.ok bs →
      format_agent_response (JValue.obj [("data", JValue.list xs),
          ("pagination", JValue.obj [("total", JValue.int t)])])
        = Except.ok (String.intercalate "\n---\n" (bs ++
            ["\nShowing " ++ toString xs.length ++ " of " ++ toString t
              ++ " total results"])))
  ∧ (∀ (xs : List JValue) (t : Int) (bs : List String), xs ≠ [] →
      (xs.take 10).mapM format_one_exhibition = Except.ok bs →
      format_exhibition_response (JValue.obj [("data", JValue.list xs),
          ("pagination", JValue.obj [("total", JValue.int t)])])
        = Except.ok (String.intercalate "\n---\n" (bs ++
            ["\nShowing " ++ toString xs.length ++ " of " ++ toString t
              ++ " total results"])))
  ∧ (∀ (xs : List JValue) (t : Int) (bs : List String), xs ≠ [] →
      (xs.take 20).mapM format_one_gallery = Except.ok bs →
      format_gallery_response (JValue.obj [("data", JValue.list xs),
          ("pagination", JValue.obj [("total", JValue.int t)])])
        = Except.ok (String.intercalate "\n---\n" (bs ++
            ["\nShowing " ++ toString xs.length ++ " of " ++ toString t
              ++ " total results"])))
  ∧ format_artwork_response envTen = Except.ok outTen
  ∧ strContains outTen "Showing 10 of 37 total results (Page 1/4)" = true := by
  refine ⟨?_, ?_, ?_, ?_, rfl, by decide⟩
  · intro xs t l cp tp bs hne hbs
    obtain ⟨x, xs2, rfl⟩ := List.exists_cons_of_ne_nil hne
    simp at hbs
    simp [format_artwork_response, pyHasKey, pyIndex, dictLookup, dictGetD, pyGetD,
      pyStr, pyRepr, hbs]
  · intro xs t bs hne hbs
    obtain ⟨x, xs2, rfl⟩ := List.exists_cons_of_ne_nil hne
    simp at hbs
    simp [format_agent_response, pyHasKey, pyIndex, dictLookup, dictGetD, pyGetD,
      pyStr, pyRepr, hbs]
  · intro xs t bs hne hbs
    obtain ⟨x, xs2, rfl⟩ := List.exists_cons_of_ne_nil hne
    simp at hbs
    simp [format_exhibition_response, pyHasKey, pyIndex, dictLookup, dictGetD, pyGetD,
      pyStr, pyRepr, hbs]
  · intro xs t bs hne hbs
    obtain ⟨x, xs2, rfl⟩ := List.exists_cons_of_ne_nil hne
    simp at hbs
    simp [format_gallery_response, pyHasKey, pyIndex, dictLookup, dictGetD, pyGetD,
      pyStr, pyRepr, hbs]

/-- C3 witness: one artwork record with the spec-example pagination. -/
theorem c3_pagination_summary_line_witness :
    format_artwork_response (JValue.obj [("data", JValue.list [JValue.obj []]),
        ("pagination", JValue.obj [("total", JValue.int 37), ("limit", JValue.int 10),
          ("current_page", JValue.int 1), ("total_pages", JValue.int 4)])])
      = Except.ok ("\n**Untitled**\nID: Unknown\nArtist: Unknown artist\nDate: Unknown date\nMedium: Unknown medium\nOrigin: Unknown origin\nDescription: No description available\n\n---\n\nShowing 1 of 37 total results (Page 1/4)") :=
  c3_pagination_summary_line.1 [JValue.obj []] 37 10 1 4
    ["\n**Untitled**\nID: Unknown\nArtist: Unknown artist\nDate: Unknown date\nMedium: Unknown medium\nOrigin: Unknown origin\nDescription: No description available\n"]
    (List.cons_ne_nil _ _) rfl

/-- C4: every request `call_tool` issues, over all oracles, tool names and
argument mappings, has only non-null parameter values: null-valued
parameters are dropped before the query string is encoded. -/
theorem c4_no_null_in_outbound_params (net : Net) (name : String) (args : PyDict)
    (req : Request) (kv : String × JValue)
    (hreq : req ∈ (call_tool net name args).2) (hkv : kv ∈ req.params) :
    kv.2 ≠ JValue.null := by
  rw [call_tool_log] at hreq
  rcases call_tool_text_log_shape net name args with h | ⟨e, p, h⟩
  · rw [h] at hreq
    exact absurd hreq (List.not_mem_nil req)
  · rw [h, List.mem_singleton] at hreq
    subst hreq
    exact make_api_request_no_null net e p kv hkv

/-- C4 witness: the `q` parameter of a concrete `search_artworks` request. -/
theorem c4_no_null_in_outbound_params_witness :
    ("q", JValue.str "monet").2 ≠ JValue.null :=
  c4_no_null_in_outbound_params netOkEmpty "search_artworks"
    [("query", JValue.str "monet"), ("limit", JValue.int 0)]
    ⟨"https://api.artic.edu/api/v1/artworks/search",
      [("q", JValue.str "monet"), ("limit", JValue.int 0), ("page", JValue.int 1)]⟩
    ("q", JValue.str "monet")
    (List.mem_singleton.mpr rfl)
    (List.mem_cons_self _ _)

/-- C6: the rendered description is the first 300 characters of the
string, with an ellipsis marker appended exactly when the string is longer
than 300 characters; strings of at most 300 characters are rendered
unchanged (agent and artwork renderers alike). -/
theorem c6_description_truncation (s : String) :
    format_one_agent (.obj [("description", JValue.str s)])
      = .ok ("\n**Unknown**\nID: Unknown\nBirth: Unknown\nDeath: Unknown\nDescription: "
          ++ (String.mk (s.data.take 300) ++ (if s.length > 300 then "..." else "")) ++ "\n")
  ∧ format_one_artwork (.obj [("description", JValue.str s)])
      = .ok ("\n**Untitled**\nID: Unknown\nArtist: Unknown artist\nDate: Unknown date\nMedium: Unknown medium\nOrigin: Unknown origin\nDescription: "
          ++ (String.mk (s.data.take 300) ++ (if s.length > 300 then "..." else "")) ++ "\n")
  ∧ (String.mk (s.data.take 300)).length ≤ 300
  ∧ (s.length ≤ 300 → String.mk (s.data.take 300) = s)
  ∧ (300 < s.length → String.mk (s.data.take 300) ≠ s) := by
  refine ⟨rfl, rfl, ?_, ?_, ?_⟩
  · rw [String.length_mk, List.length_take]
    omega
  · intro h
    cases s with
    | mk data =>
      rw [List.take_of_length_le h]
  · intro h heq
    have hlen := congrArg String.length heq
    rw [String.length_mk, List.length_take] at hlen
    have hl : s.length = s.data.length := rfl
    omega

/-- C6 witness: a short description is rendered unchanged. -/
theorem c6_description_truncation_witness :
    String.mk (("hi" : String).data.take 300) = "hi" :=
  (c6_description_truncation "hi").2.2.2.1 (by decide)

/-- C7: an envelope whose `data` key is absent, or present as the empty
list, makes every renderer return its fixed kind-specific no-results
message (one fixed text for the absent case and one for the empty case),
as a successful reply with no record field ever accessed. -/
theorem c7_empty_envelope_fixed_messages (fs : List (String × JValue)) :
    (dictLookup fs "data" = none →
      format_artwork_response (.obj fs) = .ok "No artwork data found."
      ∧ format_agent_response (.obj fs) = .ok "No agent data found."
      ∧ format_exhibition_response (.obj fs) = .ok "No exhibition data found."
      ∧ format_gallery_response (.obj fs) = .ok "No gallery data found.")
  ∧ (dictLookup fs "data" = some (JValue.list []) →
      format_artwork_response (.obj fs) = .ok "No artworks found."
      ∧ format_agent_response (.obj fs) = .ok "No agents found."
      ∧ format_exhibition_response (.obj fs) = .ok "No exhibitions found."
      ∧ format_gallery_response (.obj fs) = .ok "No galleries found.") := by
  constructor
  · intro h
    refine ⟨?_, ?_, ?_, ?_⟩ <;>
      simp [format_artwork_response, format_agent_response, format_exhibition_response,
        format_gallery_response, pyHasKey, pyIndex, h]
  · intro h
    refine ⟨?_, ?_, ?_, ?_⟩ <;>
      simp [format_artwork_response, format_agent_response, format_exhibition_response,
        format_gallery_response, pyHasKey, pyIndex, h]

/-- C7 witness: an envelope without `data` and one with an empty list. -/
theorem c7_empty_envelope_fixed_messages_witness :
    format_artwork_response (.obj []) = .ok "No artwork data found."
    ∧ format_gallery_response (.obj [("data", JValue.list [])]) = .ok "No galleries found." :=
  ⟨((c7_empty_envelope_fixed_messages []).1 rfl).1,
   ((c7_empty_envelope_fixed_messages [("data", JValue.list [])]).2 rfl).2.2.2⟩

/-- C8 counterexample: an artwork record whose `id` key is present with
the integer 0 gets no web URL line at all (the code tests truthiness, not
presence), while its image URL line is rendered. -/
theorem c8_counterexample_id_zero_no_web_url :
    pyIndex recIdZero "id" = .ok (JValue.int 0)
  ∧ format_one_artwork recIdZero = .ok outIdZero
  ∧ strContains outIdZero "https://www.artic.edu/iiif/2/abc123/full/843,/0/default.jpg" = true
  ∧ strContains outIdZero "/artworks/" = false
  ∧ strContains outIdZero "View online" = false :=
  ⟨rfl, rfl, by decide, by decide, by decide⟩

/-- C8 (amended): for a record whose image identifier is present and
non-empty and whose id is present and non-zero, the block contains the
image URL from the fixed IIIF template and the web URL from the fixed
public-site template; in particular for `image_id = "abc123"` and
`id = 42` both URLs appear. -/
theorem c8_url_templates :
    (∀ (img : String) (n : Int), img ≠ "" → n ≠ 0 →
      format_one_artwork (.obj [("id", JValue.int n), ("image_id", JValue.str img)])
        = .ok ("\n**Untitled**\nID: " ++ toString n ++ "\nArtist: " ++ "Unknown artist"
            ++ "\nDate: " ++ "Unknown date" ++ "\nMedium: " ++ "Unknown medium"
            ++ "\nOrigin: " ++ "Unknown origin" ++ "\nDescription: "
            ++ "No description available" ++ "\n"
            ++ "Image: https://www.artic.edu/iiif/2/" ++ img ++ "/full/843,/0/default.jpg\n"
            ++ "View online: https://www.artic.edu/artworks/" ++ toString n ++ "\n"))
  ∧ format_one_artwork recFortyTwo = .ok outFortyTwo
  ∧ strContains outFortyTwo "https://www.artic.edu/iiif/2/abc123/full/843,/0/default.jpg" = true
  ∧ strContains outFortyTwo "/artworks/42" = true := by
  refine ⟨?_, rfl, by decide, by decide⟩
  intro img n himg hn
  simp [format_one_artwork, pyGetD, pyGet, dictGetD, dictGet, dictLookup, descClause,
    pySlice300, pyLen, pyStr, pyRepr, pyTruthy, himg, hn]
  rw [if_neg (by decide)]
  rfl

/-- C8 witness: the record of the spec example. -/
theorem c8_url_templates_witness :
    format_one_artwork (.obj [("id", JValue.int 42), ("image_id", JValue.str "abc123")])
      = .ok "\n**Untitled**\nID: 42\nArtist: Unknown artist\nDate: Unknown date\nMedium: Unknown medium\nOrigin: Unknown origin\nDescription: No description available\nImage: https://www.artic.edu/iiif/2/abc123/full/843,/0/default.jpg\nView online: https://www.artic.edu/artworks/42\n" :=
  c8_url_templates.1 "abc123" 42 (by decide) (by decide)

end AicServer
